import Mathlib

/-!
Verification of the slide-segmentation and build/watch orchestration logic of
a Markdown-based slideshow renderer (source files `src/markdown.rs` and
`src/main.rs`).

The development shallowly embeds the program:

* `MEvent` models `pulldown_cmark::Event` (tags and string payloads are kept
  abstract as `String`; the segmenter only ever inspects the `Rule`
  constructor, so this is faithful for every claim below).
* `Slideshow` models the `Slideshow` iterator adapter: its state is the
  pending-output queue `next_events` (a `VecDeque` in the source) and the
  `in_slide` flag; `Slideshow.new`, `Slideshow.start_slide`,
  `Slideshow.end_slide` and `Slideshow.transform` mirror the methods of the
  same names.
* `Slideshow.run` models draining the iterator (`Iterator::next` in the
  source): each `next()` call pops the front of the queue, and when the queue
  is empty it pulls one upstream event, feeds it to `transform` (which appends
  at least one event to the queue) and pops again.  Since `transform` only
  ever appends to the back of the queue and `next()` only pops from the
  front, the complete output stream is the current queue followed by the
  stream produced from the post-`transform` state; `Slideshow.run` is that
  stream, by structural recursion on the remaining upstream input.
-/

/-- Model of `pulldown_cmark::Event` (markdown.rs line 9).  `Rule` is the
thematic-break event; the remaining constructors carry abstract payloads. -/
inductive MEvent where
  | Rule : MEvent
  | Html : String → MEvent
  | Text : String → MEvent
  | Code : String → MEvent
  | Start : String → MEvent
  | End : String → MEvent
  | SoftBreak : MEvent
  | HardBreak : MEvent
  | FootnoteReference : String → MEvent
  | TaskListMarker : Bool → MEvent
deriving DecidableEq, Repr

/-- The slide-open marker pushed by `start_slide` (markdown.rs lines 91-95). -/
def slideOpen : MEvent := MEvent.Html "<section class=\"slide\">"

/-- The slide-close marker pushed by `end_slide` (markdown.rs lines 97-101). -/
def slideClose : MEvent := MEvent.Html "</section>"

/-- State of the `Slideshow` iterator adapter (markdown.rs lines 74-78):
the pending-output queue and the "currently inside a slide" flag. -/
structure Slideshow where
  next_events : List MEvent
  in_slide : Bool
deriving DecidableEq, Repr

/-- Model of `Slideshow::start_slide` (markdown.rs lines 91-95): set the flag and
queue a slide-open marker. -/
def Slideshow.start_slide (s : Slideshow) : Slideshow :=
  { s with in_slide := true, next_events := s.next_events ++ [slideOpen] }

/-- Model of `Slideshow::end_slide` (markdown.rs lines 97-101): queue a slide-close
marker and clear the flag. -/
def Slideshow.end_slide (s : Slideshow) : Slideshow :=
  { s with next_events := s.next_events ++ [slideClose], in_slide := false }

/-- Model of `Slideshow::new` (markdown.rs lines 81-89): empty queue, flag false,
then `start_slide`. -/
def Slideshow.new : Slideshow :=
  Slideshow.start_slide { next_events := [], in_slide := false }

/-- Model of `Slideshow::transform` (markdown.rs lines 103-115): a `Rule` event is
consumed, closing the current slide (when the flag is set) and opening a new
one; every other event is queued unchanged. -/
def Slideshow.transform (s : Slideshow) (e : MEvent) : Slideshow :=
  match e with
  | MEvent.Rule => (if s.in_slide then s.end_slide else s).start_slide
  | _ => { s with next_events := s.next_events ++ [e] }

/-- Draining the iterator (markdown.rs lines 118-127) over a finite upstream
input: emit the queued events, then pull the next upstream event through
`transform` and continue.  See the header comment for why this equals the
pop-one-at-a-time `next()` loop of the source. -/
def Slideshow.run : Slideshow → List MEvent → List MEvent
  | s, [] => s.next_events
  | s, ev :: evs =>
    s.next_events ++
      Slideshow.run (Slideshow.transform { next_events := [], in_slide := s.in_slide } ev) evs

/-- The Slide Segmenter as a function on finite event sequences: the full
output of a `Slideshow` built from the given upstream events. -/
def slideshow (input : List MEvent) : List MEvent :=
  Slideshow.run Slideshow.new input

/-- Closed form of the segmenter's output after the initial open marker:
each thematic break becomes close-then-open, everything else is forwarded. -/
def segBody : List MEvent → List MEvent
  | [] => []
  | e :: evs =>
    if e = MEvent.Rule then slideClose :: slideOpen :: segBody evs
    else e :: segBody evs

/-- The input stripped of thematic-break events. -/
def eraseRules : List MEvent → List MEvent
  | [] => []
  | e :: evs => if e = MEvent.Rule then eraseRules evs else e :: eraseRules evs

/-- The input split at thematic breaks: the contiguous runs of events that
end up in each slide, in order.  Always nonempty (the final, possibly empty,
run is always present). -/
def splitSlides : List MEvent → List (List MEvent)
  | [] => [[]]
  | e :: evs =>
    if e = MEvent.Rule then [] :: splitSlides evs
    else
      match splitSlides evs with
      | [] => [[e]]
      | s :: ss => (e :: s) :: ss

/-- Wrap a list of slides in markers: each slide is preceded by a slide-open
marker and followed by a slide-close marker, except the last slide, which is
left unclosed. -/
def joinSlides : List (List MEvent) → List MEvent
  | [] => []
  | [s] => slideOpen :: s
  | s :: ss => (slideOpen :: s) ++ (slideClose :: joinSlides ss)

/-!
Model of `src/main.rs` (the Build Driver and Watch Driver) and of the
`render` orchestrator of `src/markdown.rs`.

Filesystem paths are modelled as lists of components (`FsPath`), matching
`std::path::Path`, whose `starts_with` is component-wise prefix.  The
effectful collaborators (reading files, copying a static item, writing the
output file, the handlebars engine, UTF-8 decoding) are abstracted as result
fields/functions of an environment record; the control flow and error
wrapping of the source are embedded faithfully on top of them.
-/

/-- A filesystem path, as a list of components (`std::path::Path`). -/
abbrev FsPath := List String

/-- Payload of `std::io::Error`, kept abstract. -/
abbrev IOErr := String

/-- Payload of `notify::Error`, kept abstract. -/
abbrev NotifyError := String

/-- Payload of `handlebars::TemplateRenderError`, kept abstract. -/
abbrev TemplateError := String

/-- Payload of `std::string::FromUtf8Error`, kept abstract. -/
abbrev Utf8Err := String

/-- Model of `RenderError` (markdown.rs lines 14-24). -/
inductive RenderError where
  | Read : FsPath → IOErr → RenderError
  | Render : TemplateError → RenderError
  | Utf8 : Utf8Err → RenderError
deriving DecidableEq, Repr

/-- Model of `CopyStaticErr` (main.rs lines 88-105); `PrefixErr` stands for the
`StripPrefixError` variant. -/
inductive CopyStaticErr where
  | WalkDir : String → CopyStaticErr
  | PrefixErr : CopyStaticErr
  | Copy : FsPath → FsPath → IOErr → CopyStaticErr
  | CreateDir : FsPath → IOErr → CopyStaticErr
deriving DecidableEq, Repr

/-- Model of `BuildErr` (main.rs lines 107-120). -/
inductive BuildErr where
  | CopyStatic : CopyStaticErr → BuildErr
  | Render : RenderError → BuildErr
  | OutputFile : FsPath → IOErr → BuildErr
  | OutputWrite : FsPath → IOErr → BuildErr
deriving DecidableEq, Repr

/-- Model of `WatchErr` (main.rs lines 122-135). -/
inductive WatchErr where
  | CopyStatic : CopyStaticErr → WatchErr
  | Recv : WatchErr
  | Notify : NotifyError → Option FsPath → WatchErr
  | Build : BuildErr → WatchErr
deriving DecidableEq, Repr

/-- Model of `notify::DebouncedEvent`: the coalesced change notifications consumed by
the watch loop.  `NoticeWrite` and `NoticeRemove` are the variants the loop's
catch-all arm handles. -/
inductive DebouncedEvent where
  | NoticeWrite : FsPath → DebouncedEvent
  | NoticeRemove : FsPath → DebouncedEvent
  | Create : FsPath → DebouncedEvent
  | Write : FsPath → DebouncedEvent
  | Chmod : FsPath → DebouncedEvent
  | Remove : FsPath → DebouncedEvent
  | Rename : FsPath → FsPath → DebouncedEvent
  | Rescan : DebouncedEvent
  | Error : NotifyError → Option FsPath → DebouncedEvent
deriving DecidableEq, Repr

/-- The path-relevant fields of `Opt` (main.rs lines 13-47). -/
structure Opt where
  static_dir : FsPath
  template : FsPath
  input : FsPath
  output_dir : FsPath
deriving DecidableEq, Repr

/-- Model of `Opt::output_file` (main.rs lines 138-140). -/
def Opt.output_file (opt : Opt) : FsPath :=
  opt.output_dir ++ ["index.html"]

/-- The action the watch loop takes for one notification. -/
inductive WatchAction where
  | copyItem : FsPath → WatchAction
  | rerender : WatchAction
  | ignore : WatchAction
  | fatal : NotifyError → Option FsPath → WatchAction
deriving DecidableEq, Repr

/-- The shared `Create | Write` arm of the watch loop's match
(main.rs lines 237-243): re-copy a single item under the static root,
re-render when the path is the input or the template, otherwise nothing. -/
def Opt.createWriteAction (opt : Opt) (path : FsPath) : WatchAction :=
  if opt.static_dir.isPrefixOf path then WatchAction.copyItem path
  else if path = opt.input ∨ path = opt.template then WatchAction.rerender
  else WatchAction.ignore

/-- The decision logic of the watch loop's match on one notification
(main.rs lines 236-269).  Note the `Chmod` arm (lines 244-250): outside the
static root it re-renders unconditionally, with no comparison against the
input or template path. -/
def Opt.watchAction (opt : Opt) : DebouncedEvent → WatchAction
  | DebouncedEvent.Create path => opt.createWriteAction path
  | DebouncedEvent.Write path => opt.createWriteAction path
  | DebouncedEvent.Chmod path =>
    if opt.static_dir.isPrefixOf path then WatchAction.copyItem path
    else WatchAction.rerender
  | DebouncedEvent.Remove _ => WatchAction.ignore
  | DebouncedEvent.Rename _ _ => WatchAction.ignore
  | DebouncedEvent.Rescan => WatchAction.ignore
  | DebouncedEvent.Error err path => WatchAction.fatal err path
  | DebouncedEvent.NoticeWrite _ => WatchAction.ignore
  | DebouncedEvent.NoticeRemove _ => WatchAction.ignore

/-- Environment of the watch loop: the option record plus the results of the
two effectful rebuild actions (`copy_single_static` and
`write_markdown_file`). -/
structure WatchEnv where
  opt : Opt
  copyResult : FsPath → Except CopyStaticErr Unit
  writeResult : Except BuildErr Unit

/-- One iteration of the watch loop body (main.rs lines 228-269): `none`
means the loop continues to the next notification, `some e` means the loop
terminates returning `Err(e)`.  The `?` operators on `copy_single_static`
and `write_markdown_file` propagate their errors out of `watch`, via the
`From` conversions into `WatchErr`. -/
def watchStep (env : WatchEnv) (ev : DebouncedEvent) : Option WatchErr :=
  match Opt.watchAction env.opt ev with
  | WatchAction.copyItem p =>
    match env.copyResult p with
    | Except.ok _ => none
    | Except.error e => some (WatchErr.CopyStatic e)
  | WatchAction.rerender =>
    match env.writeResult with
    | Except.ok _ => none
    | Except.error e => some (WatchErr.Build e)
  | WatchAction.ignore => none
  | WatchAction.fatal err p => some (WatchErr.Notify err p)

/-- The watch loop (main.rs lines 227-270) run over a finite schedule of
notifications followed by closure of the channel: `rx.recv()` on a closed
channel yields `RecvError`, which the `?` converts to `WatchErr::Recv`.  The
loop never returns `Ok`; it ends only by an error. -/
def watchLoop (env : WatchEnv) : List DebouncedEvent → Except WatchErr Unit
  | [] => Except.error WatchErr.Recv
  | ev :: evs =>
    match watchStep env ev with
    | some e => Except.error e
    | none => watchLoop env evs

/-- Environment of one build (`Opt::render`, main.rs lines 179-197): the
results of each effectful step, in the order the driver runs them. -/
structure BuildEnv where
  opt : Opt
  copyStaticResult : Except CopyStaticErr Unit
  makeOutputResult : Except IOErr Unit
  renderResult : Except RenderError String
  createFileResult : Except IOErr Unit
  writeFileResult : Except IOErr Unit

/-- Model of `Opt::write_markdown_file` (main.rs lines 190-197): render the markdown,
create the output file, write the string; each failure is wrapped with the
output path. -/
def BuildEnv.write_markdown_file (env : BuildEnv) : Except BuildErr Unit :=
  match env.renderResult with
  | Except.error e => Except.error (BuildErr.Render e)
  | Except.ok _ =>
    match env.createFileResult with
    | Except.error e => Except.error (BuildErr.OutputFile env.opt.output_file e)
    | Except.ok _ =>
      match env.writeFileResult with
      | Except.error e => Except.error (BuildErr.OutputWrite env.opt.output_file e)
      | Except.ok _ => Except.ok ()

/-- Model of `Opt::render` (main.rs lines 179-184): copy the static tree, create the
output directory, write the rendered file; the first failure aborts. -/
def BuildEnv.render (env : BuildEnv) : Except BuildErr Unit :=
  match env.copyStaticResult with
  | Except.error e => Except.error (BuildErr.CopyStatic e)
  | Except.ok _ =>
    match env.makeOutputResult with
    | Except.error e => Except.error (BuildErr.OutputFile env.opt.output_dir e)
    | Except.ok _ => env.write_markdown_file

/-- Model of `fn main` (main.rs lines 49-53): `if let Err(e) = main_inner()` prints
the error via `println!` and falls through; `main` returns `()` either way,
so the process exit status is 0.  The result is the list of printed error
values paired with the exit status. -/
def mainRun {ε : Type} (r : Except ε Unit) : List ε × Nat :=
  match r with
  | Except.error e => ([e], 0)
  | Except.ok _ => ([], 0)

/-- Environment of the render orchestrator (markdown.rs lines 26-58): the
filesystem read results and the three external collaborators (markdown
parser, HTML serializer, handlebars engine plus UTF-8 decoding of its byte
output). -/
structure RenderEnv where
  fs : FsPath → Except IOErr String
  parse : String → List MEvent
  push_html : List MEvent → String
  hbRender : String → String → Except TemplateError (List Nat)
  utf8Decode : List Nat → Except Utf8Err String

/-- Model of `read` (markdown.rs lines 65-72): both `File::open` and `read_to_string`
failures become `RenderError::Read` carrying the path and the I/O error. -/
def RenderEnv.read (env : RenderEnv) (path : FsPath) : Except RenderError String :=
  match env.fs path with
  | Except.error e => Except.error (RenderError.Read path e)
  | Except.ok s => Except.ok s

/-- Model of `render` (markdown.rs lines 26-58): read the document, read the
template, parse, run the `Slideshow` segmenter, serialize to HTML, render
the template with the content, decode the bytes.  The function performs no
writes; it returns a complete string or an error. -/
def RenderEnv.render (env : RenderEnv) (input_file template : FsPath) :
    Except RenderError String :=
  match env.read input_file with
  | Except.error e => Except.error e
  | Except.ok input =>
    match env.read template with
    | Except.error e => Except.error e
    | Except.ok tmpl =>
      match env.hbRender tmpl (env.push_html (slideshow (env.parse input))) with
      | Except.error e => Except.error (RenderError.Render e)
      | Except.ok bytes =>
        match env.utf8Decode bytes with
        | Except.error e => Except.error (RenderError.Utf8 e)
        | Except.ok s => Except.ok s

theorem Slideshow.transform_in_slide (s : Slideshow) (e : MEvent)
    (h : s.in_slide = true) : (s.transform e).in_slide = true := by
  cases e <;> simp [Slideshow.transform, Slideshow.start_slide, Slideshow.end_slide, h]

theorem Slideshow.run_queue (q : List MEvent) (b : Bool) (input : List MEvent) :
    Slideshow.run { next_events := q, in_slide := b } input =
      q ++ Slideshow.run { next_events := [], in_slide := b } input := by
  cases input <;> simp [Slideshow.run]

theorem Slideshow.transform_nil_true (e : MEvent) :
    Slideshow.transform { next_events := [], in_slide := true } e =
      { next_events := if e = MEvent.Rule then [slideClose, slideOpen] else [e],
        in_slide := true } := by
  cases e <;> simp [Slideshow.transform, Slideshow.end_slide, Slideshow.start_slide]

theorem Slideshow.run_nil_true (input : List MEvent) :
    Slideshow.run { next_events := [], in_slide := true } input = segBody input := by
  induction input with
  | nil => rfl
  | cons ev evs ih =>
    simp only [Slideshow.run, Slideshow.transform_nil_true, List.nil_append]
    by_cases hev : ev = MEvent.Rule
    · rw [if_pos hev, Slideshow.run_queue, ih]
      simp [segBody, hev]
    · rw [if_neg hev, Slideshow.run_queue, ih]
      simp [segBody, hev]

theorem slideshow_eq (input : List MEvent) :
    slideshow input = slideOpen :: segBody input := by
  show Slideshow.run Slideshow.new input = _
  have hnew : Slideshow.new = { next_events := [slideOpen], in_slide := true } := rfl
  rw [hnew, Slideshow.run_queue, Slideshow.run_nil_true]
  rfl

theorem slideClose_ne_slideOpen : slideClose ≠ slideOpen := by decide

theorem slideOpen_ne_rule : slideOpen ≠ MEvent.Rule := by decide

theorem slideClose_ne_rule : slideClose ≠ MEvent.Rule := by decide

theorem segBody_count_open (input : List MEvent) :
    (segBody input).count slideOpen =
      input.count slideOpen + input.count MEvent.Rule := by
  induction input with
  | nil => rfl
  | cons e evs ih =>
    by_cases he : e = MEvent.Rule
    · subst he
      simp [segBody, List.count_cons, ih, slideOpen_ne_rule, slideClose_ne_slideOpen]
      omega
    · simp [segBody, he, List.count_cons, ih]
      by_cases hoe : e = slideOpen <;> (simp [hoe]; try omega)

theorem segBody_count_close (input : List MEvent) :
    (segBody input).count slideClose =
      input.count slideClose + input.count MEvent.Rule := by
  induction input with
  | nil => rfl
  | cons e evs ih =>
    by_cases he : e = MEvent.Rule
    · subst he
      simp [segBody, List.count_cons, ih, slideClose_ne_rule, slideClose_ne_slideOpen]
      omega
    · simp [segBody, he, List.count_cons, ih]
      by_cases hoe : e = slideClose <;> (simp [hoe]; try omega)

theorem segBody_length (input : List MEvent) :
    (segBody input).length = input.length + input.count MEvent.Rule := by
  induction input with
  | nil => rfl
  | cons e evs ih =>
    by_cases he : e = MEvent.Rule
    · subst he
      simp [segBody, List.count_cons, ih]
      omega
    · simp [segBody, he, List.count_cons, ih]
      omega

theorem segBody_of_no_rule (input : List MEvent)
    (h : input.count MEvent.Rule = 0) : segBody input = input := by
  induction input with
  | nil => rfl
  | cons e evs ih =>
    by_cases he : e = MEvent.Rule
    · subst he
      simp [List.count_cons] at h
    · simp [List.count_cons, he] at h
      simp [segBody, he, ih h]

theorem rule_not_mem_segBody (input : List MEvent) :
    MEvent.Rule ∉ segBody input := by
  induction input with
  | nil => simp [segBody]
  | cons e evs ih =>
    by_cases he : e = MEvent.Rule
    · subst he
      simp [segBody, ih, Ne.symm slideOpen_ne_rule, Ne.symm slideClose_ne_rule]
    · simp [segBody, he, ih, Ne.symm he]

theorem eraseRules_sublist_segBody (input : List MEvent) :
    (eraseRules input).Sublist (segBody input) := by
  induction input with
  | nil => simp [eraseRules, segBody]
  | cons e evs ih =>
    by_cases he : e = MEvent.Rule
    · subst he
      simp only [eraseRules, segBody, if_pos rfl]
      exact (ih.cons slideOpen).cons slideClose
    · simp only [eraseRules, segBody, if_neg he]
      exact ih.cons₂ e

theorem splitSlides_ne_nil (input : List MEvent) : splitSlides input ≠ [] := by
  cases input with
  | nil => simp [splitSlides]
  | cons e evs =>
    by_cases he : e = MEvent.Rule
    · simp [splitSlides, he]
    · simp only [splitSlides, if_neg he]
      cases splitSlides evs <;> simp

theorem joinSlides_splitSlides (input : List MEvent) :
    joinSlides (splitSlides input) = slideOpen :: segBody input := by
  induction input with
  | nil => rfl
  | cons e evs ih =>
    by_cases he : e = MEvent.Rule
    · subst he
      simp only [splitSlides, if_pos rfl, segBody]
      obtain ⟨s, ss, hss⟩ := List.exists_cons_of_ne_nil (splitSlides_ne_nil evs)
      rw [hss] at ih ⊢
      simp only [joinSlides, List.nil_append]
      simp [ih]
    · simp only [splitSlides, if_neg he, segBody]
      obtain ⟨s, ss, hss⟩ := List.exists_cons_of_ne_nil (splitSlides_ne_nil evs)
      rw [hss] at ih ⊢
      cases ss with
      | nil =>
        simp only [joinSlides] at ih ⊢
        simp_all
      | cons s2 ss2 =>
        simp only [joinSlides] at ih ⊢
        simp_all

theorem splitSlides_flatten (input : List MEvent) :
    (splitSlides input).flatten = eraseRules input := by
  induction input with
  | nil => simp [splitSlides, eraseRules]
  | cons e evs ih =>
    by_cases he : e = MEvent.Rule
    · subst he
      simp [splitSlides, eraseRules, ih]
    · simp only [splitSlides, eraseRules, if_neg he]
      obtain ⟨s, ss, hss⟩ := List.exists_cons_of_ne_nil (splitSlides_ne_nil evs)
      rw [hss] at ih ⊢
      simp only [List.flatten_cons] at ih ⊢
      simp [ih]

theorem Slideshow.foldl_in_slide (evs : List MEvent) (s : Slideshow)
    (h : s.in_slide = true) :
    (List.foldl Slideshow.transform s evs).in_slide = true := by
  induction evs generalizing s with
  | nil => exact h
  | cons e evs ih => exact ih _ (Slideshow.transform_in_slide s e h)

/-- C1: for an input with `k` thematic breaks, the segmenter inserts exactly
`k + 1` slide-open markers and `k` slide-close markers.  As amended: the
output contains exactly `k + 1` more events equal to the slide-open marker
(and `k` more equal to the slide-close marker) than the input itself does —
the literal counts are `k + 1` and `k` whenever no input event coincides
with a marker event — and for an input with zero thematic breaks the output
is exactly one open marker followed by the input events, with no close
marker appended. -/
theorem C1_marker_counts (input : List MEvent) :
    (slideshow input).count slideOpen
        = input.count slideOpen + input.count MEvent.Rule + 1 ∧
    (slideshow input).count slideClose
        = input.count slideClose + input.count MEvent.Rule ∧
    (input.count MEvent.Rule = 0 → slideshow input = slideOpen :: input) := by
  refine ⟨?_, ?_, fun h => ?_⟩
  · rw [slideshow_eq]
    simp [List.count_cons, segBody_count_open]
  · rw [slideshow_eq]
    simp [List.count_cons, segBody_count_close, slideOpen_ne_rule,
      Ne.symm slideClose_ne_slideOpen, slideClose_ne_slideOpen]
  · rw [slideshow_eq, segBody_of_no_rule input h]

/-- Witness for C1 at the concrete input `[Text "hi"]`. -/
theorem C1_marker_counts_witness :
    ([MEvent.Text "hi"] : List MEvent).count MEvent.Rule = 0 ∧
    slideshow [MEvent.Text "hi"] = slideOpen :: [MEvent.Text "hi"] :=
  ⟨by decide, (C1_marker_counts [MEvent.Text "hi"]).2.2 (by decide)⟩

/-- C1 as stated is false on the code: an input `Html` event identical to
the slide-open marker is forwarded unchanged, so for the input consisting of
that single event (zero thematic breaks) the output contains two slide-open
marker events, not `0 + 1 = 1`. -/
theorem C1_counterexample :
    ¬ ((slideshow [slideOpen]).count slideOpen
        = ([slideOpen] : List MEvent).count MEvent.Rule + 1) := by
  decide

/-- C2: no thematic-break (`Rule`) event ever appears in the segmenter's
output, and every non-thematic-break input event appears in the output with
unchanged content and in the same relative order: the input with its `Rule`
events erased is a sublist of the output. -/
theorem C2_rules_consumed (input : List MEvent) :
    MEvent.Rule ∉ slideshow input ∧
    (eraseRules input).Sublist (slideshow input) := by
  rw [slideshow_eq]
  constructor
  · intro hmem
    rcases List.mem_cons.mp hmem with h | h
    · exact slideOpen_ne_rule h.symm
    · exact rule_not_mem_segBody input h
  · exact (eraseRules_sublist_segBody input).cons slideOpen

/-- C3 as amended: for an input of length `N` with `k` thematic breaks
(hence `s = k + 1` slides), the output length is `N + k + 1 = N + s`: the
segmenter inserts `2k + 1` marker events (the final slide is never closed)
and removes the `k` thematic breaks, so the net growth is one event per
slide, not two. -/
theorem C3_output_length (input : List MEvent) :
    (slideshow input).length
        = input.length + (input.count MEvent.Rule + 1) := by
  rw [slideshow_eq]
  simp [segBody_length]
  omega

/-- C3 as stated is false on the code: for the empty input (`N = 0`,
`k = 0`, one slide) the output is the single open marker, of length `1`,
whereas the claim demands `N + 2 × s = 2`. -/
theorem C3_counterexample :
    ¬ ((slideshow ([] : List MEvent)).length
        = ([] : List MEvent).length
            + 2 * (([] : List MEvent).count MEvent.Rule + 1)) := by
  decide

/-- C4: the segmenter's first output event is always the slide-open marker
(also when the first input event is a thematic break, since the marker is
queued on construction before any input is pulled), and the output is
exactly the slides of the input joined with boundary markers: each run of
forwarded events lies between a slide-open marker and either a slide-close
marker or the end of the output, and the slide runs partition the
non-thematic-break input events in order. -/
theorem C4_slide_structure (input : List MEvent) :
    (slideshow input).head? = some slideOpen ∧
    slideshow input = joinSlides (splitSlides input) ∧
    (splitSlides input).flatten = eraseRules input := by
  refine ⟨?_, ?_, splitSlides_flatten input⟩
  · rw [slideshow_eq]
    rfl
  · rw [slideshow_eq, joinSlides_splitSlides]

/-- C10: the segmenter's `in_slide` flag is true at every point where an
input event is processed — it is true after construction and after
processing any sequence of events, since `transform` always leaves it true —
so the no-close branch of the thematic-break arm is unreachable and, from
any state with the flag set, a thematic break appends exactly one
slide-close marker immediately followed by one slide-open marker to the
pending queue, leaving the flag set. -/
theorem C10_in_slide_invariant (evs : List MEvent) (s : Slideshow)
    (hs : s.in_slide = true) :
    (List.foldl Slideshow.transform Slideshow.new evs).in_slide = true ∧
    Slideshow.transform s MEvent.Rule
      = { next_events := s.next_events ++ [slideClose, slideOpen],
          in_slide := true } := by
  constructor
  · exact Slideshow.foldl_in_slide evs Slideshow.new rfl
  · simp [Slideshow.transform, hs, Slideshow.end_slide, Slideshow.start_slide]

/-- Witness for C10 at the concrete state `Slideshow.new` and input
`[Rule]`. -/
theorem C10_in_slide_invariant_witness :
    (List.foldl Slideshow.transform Slideshow.new [MEvent.Rule]).in_slide
        = true ∧
    Slideshow.transform Slideshow.new MEvent.Rule
      = { next_events := Slideshow.new.next_events ++ [slideClose, slideOpen],
          in_slide := true } :=
  C10_in_slide_invariant [MEvent.Rule] Slideshow.new (by decide)

/-- C9: a notification carrying an internal error from the watch mechanism
always terminates the watch loop, whatever the environment and whatever
notifications are still queued, and the returned error carries the watch
mechanism's error together with the associated path when one is present. -/
theorem C9_fault_terminates (env : WatchEnv) (err : NotifyError)
    (p : Option FsPath) (rest : List DebouncedEvent) :
    watchLoop env (DebouncedEvent.Error err p :: rest)
      = Except.error (WatchErr.Notify err p) := by
  simp [watchLoop, watchStep, Opt.watchAction]

/-- C5 as amended: in watch mode, a routine I/O or render error occurring
during a rebuild triggered by a change notification also terminates the
watch loop — a failed static-file copy propagates as `WatchErr::CopyStatic`
and a failed render/output write as `WatchErr::Build`, exactly like the
always-fatal watch-mechanism errors — because the loop body applies `?` to
`copy_single_static` and `write_markdown_file`. -/
theorem C5_routine_errors_fatal (env : WatchEnv) (pa pb : FsPath)
    (rest : List DebouncedEvent) (ce : CopyStaticErr) (be : BuildErr)
    (err : NotifyError) (q : Option FsPath)
    (h1 : env.opt.static_dir.isPrefixOf pa = true)
    (h2 : env.copyResult pa = Except.error ce)
    (h3 : env.opt.static_dir.isPrefixOf pb = false)
    (h4 : pb = env.opt.input)
    (h5 : env.writeResult = Except.error be) :
    watchLoop env (DebouncedEvent.Create pa :: rest)
        = Except.error (WatchErr.CopyStatic ce) ∧
    watchLoop env (DebouncedEvent.Write pb :: rest)
        = Except.error (WatchErr.Build be) ∧
    watchLoop env (DebouncedEvent.Error err q :: rest)
        = Except.error (WatchErr.Notify err q) := by
  refine ⟨?_, ?_, ?_⟩
  · simp [watchLoop, watchStep, Opt.watchAction, Opt.createWriteAction, h1, h2]
  · subst h4
    simp [watchLoop, watchStep, Opt.watchAction, Opt.createWriteAction, h3, h5]
  · simp [watchLoop, watchStep, Opt.watchAction]

/-- Witness for C5 (amended) at a concrete environment and schedule. -/
theorem C5_routine_errors_fatal_witness :
    watchLoop
      { opt := { static_dir := ["static"], template := ["template.html"],
                 input := ["slides.md"], output_dir := ["out"] },
        copyResult := fun _ =>
          Except.error
            (CopyStaticErr.Copy ["static", "a.css"] ["out", "a.css"] "denied"),
        writeResult :=
          Except.error
            (BuildErr.Render (RenderError.Read ["slides.md"] "unreadable")) }
      [DebouncedEvent.Create ["static", "a.css"]]
        = Except.error
            (WatchErr.CopyStatic
              (CopyStaticErr.Copy ["static", "a.css"] ["out", "a.css"]
                "denied")) ∧
    watchLoop
      { opt := { static_dir := ["static"], template := ["template.html"],
                 input := ["slides.md"], output_dir := ["out"] },
        copyResult := fun _ =>
          Except.error
            (CopyStaticErr.Copy ["static", "a.css"] ["out", "a.css"] "denied"),
        writeResult :=
          Except.error
            (BuildErr.Render (RenderError.Read ["slides.md"] "unreadable")) }
      [DebouncedEvent.Write ["slides.md"]]
        = Except.error
            (WatchErr.Build
              (BuildErr.Render (RenderError.Read ["slides.md"] "unreadable"))) ∧
    watchLoop
      { opt := { static_dir := ["static"], template := ["template.html"],
                 input := ["slides.md"], output_dir := ["out"] },
        copyResult := fun _ =>
          Except.error
            (CopyStaticErr.Copy ["static", "a.css"] ["out", "a.css"] "denied"),
        writeResult :=
          Except.error
            (BuildErr.Render (RenderError.Read ["slides.md"] "unreadable")) }
      [DebouncedEvent.Error "watch fault" (some ["static"])]
        = Except.error (WatchErr.Notify "watch fault" (some ["static"])) :=
  C5_routine_errors_fatal
    { opt := { static_dir := ["static"], template := ["template.html"],
               input := ["slides.md"], output_dir := ["out"] },
      copyResult := fun _ =>
        Except.error
          (CopyStaticErr.Copy ["static", "a.css"] ["out", "a.css"] "denied"),
      writeResult :=
        Except.error
          (BuildErr.Render (RenderError.Read ["slides.md"] "unreadable")) }
    ["static", "a.css"] ["slides.md"] [] _ _ "watch fault" (some ["static"])
    (by decide) rfl (by decide) rfl rfl

/-- C5 as stated is false on the code: with a failing single-item copy, a
creation notification under the static root terminates the watch loop (the
queued `Rescan` notification is never processed), even though no
watch-mechanism error occurred. -/
theorem C5_counterexample :
    watchLoop
      { opt := { static_dir := ["static"], template := ["template.html"],
                 input := ["slides.md"], output_dir := ["out"] },
        copyResult := fun _ =>
          Except.error
            (CopyStaticErr.Copy ["static", "a.css"] ["out", "a.css"] "denied"),
        writeResult := Except.ok () }
      [DebouncedEvent.Create ["static", "a.css"], DebouncedEvent.Rescan]
      = Except.error
          (WatchErr.CopyStatic
            (CopyStaticErr.Copy ["static", "a.css"] ["out", "a.css"]
              "denied")) := by
  rfl

/-- C6 as amended: a Chmod notification re-copies the single item when the
path is under the static-asset root, and otherwise always re-renders and
rewrites the output file — even when the path is neither the document path
nor the template path.  It therefore agrees with a Create/Write notification
for paths under the static root and for the document/template paths, but
not for other paths, where Create/Write does nothing. -/
theorem C6_chmod_action (opt : Opt) (p : FsPath) :
    Opt.watchAction opt (DebouncedEvent.Chmod p)
      = if opt.static_dir.isPrefixOf p then WatchAction.copyItem p
        else WatchAction.rerender :=
  rfl

/-- C6 as stated is false on the code: for a path outside the static root
that is neither the document nor the template, a Chmod notification
re-renders while a Create notification for the same path does nothing. -/
theorem C6_counterexample :
    Opt.watchAction
        { static_dir := ["static"], template := ["template.html"],
          input := ["slides.md"], output_dir := ["out"] }
        (DebouncedEvent.Chmod ["unrelated.txt"])
      ≠ Opt.watchAction
        { static_dir := ["static"], template := ["template.html"],
          input := ["slides.md"], output_dir := ["out"] }
        (DebouncedEvent.Create ["unrelated.txt"]) := by
  decide

/-- C7 as amended: in one-shot build mode, when any build step fails the run
aborts (the first error propagates out of `Opt::render`) and the error is
reported to the user-visible output, but the process then exits with status
0 — a successful exit status — because `main` prints the error with
`println!` and returns unit. -/
theorem C7_error_printed_exit_zero (env : BuildEnv) (e : BuildErr)
    (h : BuildEnv.render env = Except.error e) :
    mainRun (BuildEnv.render env) = ([e], 0) := by
  rw [h]
  rfl

/-- Witness for C7 (amended) at a concrete build with a failing static
copy. -/
theorem C7_error_printed_exit_zero_witness :
    mainRun
      (BuildEnv.render
        { opt := { static_dir := ["static"], template := ["template.html"],
                   input := ["slides.md"], output_dir := ["out"] },
          copyStaticResult :=
            Except.error
              (CopyStaticErr.Copy ["static", "logo.png"] ["out", "logo.png"]
                "denied"),
          makeOutputResult := Except.ok (),
          renderResult := Except.ok "page",
          createFileResult := Except.ok (),
          writeFileResult := Except.ok () })
      = ([BuildErr.CopyStatic
            (CopyStaticErr.Copy ["static", "logo.png"] ["out", "logo.png"]
              "denied")], 0) :=
  C7_error_printed_exit_zero
    { opt := { static_dir := ["static"], template := ["template.html"],
               input := ["slides.md"], output_dir := ["out"] },
      copyStaticResult :=
        Except.error
          (CopyStaticErr.Copy ["static", "logo.png"] ["out", "logo.png"]
            "denied"),
      makeOutputResult := Except.ok (),
      renderResult := Except.ok "page",
      createFileResult := Except.ok (),
      writeFileResult := Except.ok () }
    _ rfl

/-- C7 as stated is false on the code: a failing build step aborts the run
and the error is printed, yet the process exit status is 0 (successful),
because `main` swallows the error of `main_inner` after printing it. -/
theorem C7_counterexample :
    BuildEnv.render
        { opt := { static_dir := ["static"], template := ["template.html"],
                   input := ["slides.md"], output_dir := ["out"] },
          copyStaticResult := Except.ok (),
          makeOutputResult := Except.ok (),
          renderResult :=
            Except.error (RenderError.Read ["slides.md"] "not found"),
          createFileResult := Except.ok (),
          writeFileResult := Except.ok () }
      = Except.error
          (BuildErr.Render (RenderError.Read ["slides.md"] "not found")) ∧
    (mainRun
      (BuildEnv.render
        { opt := { static_dir := ["static"], template := ["template.html"],
                   input := ["slides.md"], output_dir := ["out"] },
          copyStaticResult := Except.ok (),
          makeOutputResult := Except.ok (),
          renderResult :=
            Except.error (RenderError.Read ["slides.md"] "not found"),
          createFileResult := Except.ok (),
          writeFileResult := Except.ok () })).2 = 0 :=
  ⟨rfl, rfl⟩

/-- C8: if the document path cannot be opened or read the orchestrator
returns a read failure carrying that path and the underlying I/O error; if
the document reads but the template path does not, it returns a read
failure carrying the template path and its I/O error; and in either error
case it returns no string — the result is one complete string or one error,
and the orchestrator performs no writes to storage (its embedding reads the
store through `RenderEnv.fs` and has no write effect; writing is the Build
Driver's job). -/
theorem C8_read_failures (env : RenderEnv) (da db tmpl : FsPath)
    (ei et : IOErr) (s r : String)
    (h1 : env.fs da = Except.error ei)
    (h2 : env.fs db = Except.ok s)
    (h3 : env.fs tmpl = Except.error et) :
    RenderEnv.render env da tmpl
        = Except.error (RenderError.Read da ei) ∧
    RenderEnv.render env db tmpl
        = Except.error (RenderError.Read tmpl et) ∧
    RenderEnv.render env da tmpl ≠ Except.ok r ∧
    RenderEnv.render env db tmpl ≠ Except.ok r := by
  have ha : RenderEnv.render env da tmpl
      = Except.error (RenderError.Read da ei) := by
    simp [RenderEnv.render, RenderEnv.read, h1]
  have hb : RenderEnv.render env db tmpl
      = Except.error (RenderError.Read tmpl et) := by
    simp [RenderEnv.render, RenderEnv.read, h2, h3]
  refine ⟨ha, hb, ?_, ?_⟩
  · rw [ha]
    intro hr
    exact Except.noConfusion hr
  · rw [hb]
    intro hr
    exact Except.noConfusion hr

/-- Witness for C8 at a concrete environment: the store holds only
`good.md`. -/
theorem C8_read_failures_witness :
    RenderEnv.render
        { fs := fun p =>
            if p = ["good.md"] then Except.ok "body"
            else Except.error "enoent",
          parse := fun _ => [],
          push_html := fun _ => "",
          hbRender := fun _ _ => Except.ok [],
          utf8Decode := fun _ => Except.ok "" }
        ["bad.md"] ["template.html"]
        = Except.error (RenderError.Read ["bad.md"] "enoent") ∧
    RenderEnv.render
        { fs := fun p =>
            if p = ["good.md"] then Except.ok "body"
            else Except.error "enoent",
          parse := fun _ => [],
          push_html := fun _ => "",
          hbRender := fun _ _ => Except.ok [],
          utf8Decode := fun _ => Except.ok "" }
        ["good.md"] ["template.html"]
        = Except.error (RenderError.Read ["template.html"] "enoent") ∧
    RenderEnv.render
        { fs := fun p =>
            if p = ["good.md"] then Except.ok "body"
            else Except.error "enoent",
          parse := fun _ => [],
          push_html := fun _ => "",
          hbRender := fun _ _ => Except.ok [],
          utf8Decode := fun _ => Except.ok "" }
        ["bad.md"] ["template.html"] ≠ Except.ok "page" ∧
    RenderEnv.render
        { fs := fun p =>
            if p = ["good.md"] then Except.ok "body"
            else Except.error "enoent",
          parse := fun _ => [],
          push_html := fun _ => "",
          hbRender := fun _ _ => Except.ok [],
          utf8Decode := fun _ => Except.ok "" }
        ["good.md"] ["template.html"] ≠ Except.ok "page" :=
  C8_read_failures
    { fs := fun p =>
        if p = ["good.md"] then Except.ok "body"
        else Except.error "enoent",
      parse := fun _ => [],
      push_html := fun _ => "",
      hbRender := fun _ _ => Except.ok [],
      utf8Decode := fun _ => Except.ok "" }
    ["bad.md"] ["good.md"] ["template.html"] "enoent" "enoent" "body" "page"
    (by simp) (by simp) (by simp)
